import Mathlib

/-!
Shallow embedding of the repository's single source file,
`examples/plot_stc.ipynb`: a Jupyter notebook whose code cells import
third-party libraries, resolve the sample-dataset path, read a source
estimate, print its time axis, and render it with
`mne_g3d.viz.plot_source_estimates`.

The notebook's code cells are embedded as a list of statements over a
tiny expression language; the three external operations
(`mne.datasets.sample.data_path`, `mne.read_source_estimate`,
`mne_g3d.viz.plot_source_estimates`) are parameters of the execution
(an `Oracle`), so theorems quantify over every behaviour of the
external libraries.  Execution records an ordered event trace.
-/

namespace PlotStc

/-- `os.path.join` on two components, as CPython's `posixpath.join`:
the second component replaces the first when absolute, otherwise it is
appended, inserting `/` unless the first part is empty or already ends
in `/`. -/
def osPathJoin (a b : String) : String :=
  if b.startsWith "/" then b
  else if a = "" ∨ a.endsWith "/" then a ++ b
  else a ++ "/" ++ b

/-- The opaque source-estimate object returned by
`mne.read_source_estimate`: it exposes a `times` attribute (modelled as
a list of rationals, the sampled time points) and otherwise arbitrary
payload data this repository never inspects. -/
structure SourceEstimate where
  times : List ℚ
  payload : ℕ
  deriving DecidableEq, Repr

/-- Python run-time values occurring in the notebook. -/
inductive Value where
  | str : String → Value
  | num : ℚ → Value
  | bool : Bool → Value
  | pyNone : Value
  | stcObj : SourceEstimate → Value
  | timesArr : List ℚ → Value
  | figObj : ℕ → Value
  deriving DecidableEq, Repr

/-- The notebook's variable names. -/
inductive VarName where
  | data_path | subject | subjects_dir | act_data | stc | fig
  deriving DecidableEq, Repr

/-- Expressions of the notebook's code cells. -/
inductive Expr where
  | strLit : String → Expr
  | numLit : ℚ → Expr
  | boolLit : Bool → Expr
  | noneLit : Expr
  | var : VarName → Expr
  | attr : Expr → String → Expr
  | dataPathCall : Expr
  | pathJoinCall : Expr → Expr → Expr
  | readSourceEstimateCall : Expr → Expr
  deriving DecidableEq, Repr

/-- Statements of the notebook's code cells.  The single call to
`mne_g3d.viz.plot_source_estimates` is a statement carrying its keyword
arguments in source order. -/
inductive Stmt where
  | importModule : String → Option String → Stmt
  | importFrom : String → String → Stmt
  | assign : VarName → Expr → Stmt
  | printStmt : Expr → Stmt
  | assignPlotCall : VarName → Expr → List (String × Expr) → Stmt
  deriving DecidableEq, Repr

/-- Relative path of the activation data below the dataset root. -/
def actDataRel : String := "MEG/sample/sample_audvis-meg-eeg"

/-- The keyword arguments of the `plot_source_estimates` call, exactly
as written in the notebook, in source order. -/
def plotKwargsSrc : List (String × Expr) :=
  [ ("subject", Expr.var VarName.subject),
    ("surface", Expr.strLit "inflated"),
    ("hemi", Expr.strLit "both"),
    ("colormap", Expr.strLit "hot"),
    ("smoothing_steps", Expr.numLit 10),
    ("transparent", Expr.boolLit false),
    ("alpha", Expr.numLit 1),
    ("subjects_dir", Expr.var VarName.subjects_dir),
    ("clim", Expr.strLit "auto"),
    ("figure", Expr.noneLit),
    ("size", Expr.numLit 800),
    ("background", Expr.strLit "black"),
    ("initial_time", Expr.numLit (23/100)) ]

/-- First code cell: the imports of third-party modules. -/
def cell1 : List Stmt :=
  [ Stmt.importModule "os.path" (some "path"),
    Stmt.importModule "mne" none,
    Stmt.importFrom "mne" "read_source_estimate",
    Stmt.importModule "numpy" (some "np") ]

/-- Second code cell: the `mne_g3d` import. -/
def cell2 : List Stmt :=
  [ Stmt.importModule "mne_g3d" none ]

/-- Third code cell: data reading, the diagnostic print of `stc.times`,
and the plotting call. -/
def cell3 : List Stmt :=
  [ Stmt.assign VarName.data_path Expr.dataPathCall,
    Stmt.assign VarName.subject (Expr.strLit "sample"),
    Stmt.assign VarName.subjects_dir
      (Expr.pathJoinCall (Expr.var VarName.data_path) (Expr.strLit "subjects")),
    Stmt.assign VarName.act_data
      (Expr.pathJoinCall (Expr.var VarName.data_path) (Expr.strLit actDataRel)),
    Stmt.assign VarName.stc (Expr.readSourceEstimateCall (Expr.var VarName.act_data)),
    Stmt.printStmt (Expr.attr (Expr.var VarName.stc) "times"),
    Stmt.assignPlotCall VarName.fig (Expr.var VarName.stc) plotKwargsSrc ]

/-- Fourth code cell: empty. -/
def cell4 : List Stmt := []

/-- All statements of the notebook's code cells, in execution order. -/
def notebookStmts : List Stmt := cell1 ++ cell2 ++ cell3 ++ cell4

/-- Observable events of an execution: the three external calls and the
textual print output, in order of occurrence. -/
inductive Event where
  | dataPath : Event
  | readSourceEstimate : String → Event
  | print : Value → Event
  | plotSourceEstimates : Value → List (String × Value) → Event
  deriving DecidableEq, Repr

/-- Behaviour of the external libraries: each operation either returns
a value or raises (an exception message). -/
structure Oracle where
  dataPathRes : Except String String
  readRes : String → Except String SourceEstimate
  plotRes : Value → List (String × Value) → Except String ℕ

/-- Execution state: the variable environment and the ordered event
trace so far. -/
structure ExecState where
  env : VarName → Option Value
  trace : List Event

/-- Bind a variable. -/
def ExecState.setVar (s : ExecState) (x : VarName) (v : Value) : ExecState :=
  { s with env := fun y => if y = x then some v else s.env y }

/-- Append an event to the trace. -/
def ExecState.emit (s : ExecState) (e : Event) : ExecState :=
  { s with trace := s.trace ++ [e] }

/-- Evaluate an expression: returns the updated state and either a
value or a raised exception. -/
def evalExpr (o : Oracle) : ExecState → Expr → ExecState × Except String Value
  | s, Expr.strLit v => (s, Except.ok (Value.str v))
  | s, Expr.numLit q => (s, Except.ok (Value.num q))
  | s, Expr.boolLit b => (s, Except.ok (Value.bool b))
  | s, Expr.noneLit => (s, Except.ok Value.pyNone)
  | s, Expr.var x =>
      match s.env x with
      | some v => (s, Except.ok v)
      | none => (s, Except.error "NameError")
  | s, Expr.attr e f =>
      match evalExpr o s e with
      | (s1, Except.ok (Value.stcObj st)) =>
          if f = "times" then (s1, Except.ok (Value.timesArr st.times))
          else (s1, Except.error "AttributeError")
      | (s1, Except.ok _) => (s1, Except.error "AttributeError")
      | (s1, Except.error err) => (s1, Except.error err)
  | s, Expr.dataPathCall =>
      let s1 := s.emit Event.dataPath
      match o.dataPathRes with
      | Except.ok p => (s1, Except.ok (Value.str p))
      | Except.error err => (s1, Except.error err)
  | s, Expr.pathJoinCall a b =>
      match evalExpr o s a with
      | (s1, Except.ok va) =>
          match evalExpr o s1 b with
          | (s2, Except.ok vb) =>
              match va, vb with
              | Value.str x, Value.str y => (s2, Except.ok (Value.str (osPathJoin x y)))
              | _, _ => (s2, Except.error "TypeError")
          | (s2, Except.error err) => (s2, Except.error err)
      | (s1, Except.error err) => (s1, Except.error err)
  | s, Expr.readSourceEstimateCall e =>
      match evalExpr o s e with
      | (s1, Except.ok (Value.str p)) =>
          let s2 := s1.emit (Event.readSourceEstimate p)
          match o.readRes p with
          | Except.ok st => (s2, Except.ok (Value.stcObj st))
          | Except.error err => (s2, Except.error err)
      | (s1, Except.ok _) => (s1, Except.error "TypeError")
      | (s1, Except.error err) => (s1, Except.error err)

/-- Evaluate a keyword-argument list left to right. -/
def evalKwargs (o : Oracle) :
    ExecState → List (String × Expr) → ExecState × Except String (List (String × Value))
  | s, [] => (s, Except.ok [])
  | s, (k, e) :: rest =>
      match evalExpr o s e with
      | (s1, Except.ok v) =>
          match evalKwargs o s1 rest with
          | (s2, Except.ok vs) => (s2, Except.ok ((k, v) :: vs))
          | (s2, Except.error err) => (s2, Except.error err)
      | (s1, Except.error err) => (s1, Except.error err)

/-- Execute one statement: returns the updated state and `some err`
when an exception was raised. -/
def execStmt (o : Oracle) (s : ExecState) : Stmt → ExecState × Option String
  | Stmt.importModule _ _ => (s, none)
  | Stmt.importFrom _ _ => (s, none)
  | Stmt.assign x e =>
      match evalExpr o s e with
      | (s1, Except.ok v) => (s1.setVar x v, none)
      | (s1, Except.error err) => (s1, some err)
  | Stmt.printStmt e =>
      match evalExpr o s e with
      | (s1, Except.ok v) => (s1.emit (Event.print v), none)
      | (s1, Except.error err) => (s1, some err)
  | Stmt.assignPlotCall x f kws =>
      match evalExpr o s f with
      | (s1, Except.ok vf) =>
          match evalKwargs o s1 kws with
          | (s2, Except.ok kvs) =>
              let s3 := s2.emit (Event.plotSourceEstimates vf kvs)
              match o.plotRes vf kvs with
              | Except.ok n => (s3.setVar x (Value.figObj n), none)
              | Except.error err => (s3, some err)
          | (s2, Except.error err) => (s2, some err)
      | (s1, Except.error err) => (s1, some err)

/-- Execute statements in order, stopping at the first raised
exception: the remaining statements are not executed. -/
def execStmts (o : Oracle) : ExecState → List Stmt → ExecState × Option String
  | s, [] => (s, none)
  | s, st :: rest =>
      match execStmt o s st with
      | (s1, none) => execStmts o s1 rest
      | (s1, some err) => (s1, some err)

/-- Initial state: empty environment, empty trace. -/
def initState : ExecState := ⟨fun _ => none, []⟩

/-- Run the whole notebook against a given behaviour of the external
libraries. -/
def runNotebook (o : Oracle) : ExecState × Option String :=
  execStmts o initState notebookStmts

/-- The absolute activation-data path for a given dataset root. -/
def actPath (dp : String) : String := osPathJoin dp actDataRel

/-- The keyword-argument values received by `plot_source_estimates`
when the dataset root is `dp`. -/
def plotKwargsOut (dp : String) : List (String × Value) :=
  [ ("subject", Value.str "sample"),
    ("surface", Value.str "inflated"),
    ("hemi", Value.str "both"),
    ("colormap", Value.str "hot"),
    ("smoothing_steps", Value.num 10),
    ("transparent", Value.bool false),
    ("alpha", Value.num 1),
    ("subjects_dir", Value.str (osPathJoin dp "subjects")),
    ("clim", Value.str "auto"),
    ("figure", Value.pyNone),
    ("size", Value.num 800),
    ("background", Value.str "black"),
    ("initial_time", Value.num (23/100)) ]

/-- The full event trace of a successful (or plot-failing) run with
dataset root `dp` and loaded estimate `st`. -/
def fullTrace (dp : String) (st : SourceEstimate) : List Event :=
  [ Event.dataPath,
    Event.readSourceEstimate (actPath dp),
    Event.print (Value.timesArr st.times),
    Event.plotSourceEstimates (Value.stcObj st) (plotKwargsOut dp) ]

/-- The printed output recorded in an event trace. -/
def printedOutput (t : List Event) : List Value :=
  t.filterMap fun e =>
    match e with
    | Event.print v => some v
    | _ => none

end PlotStc

namespace PlotStc

/-- Statement classifier: importing a third-party library. -/
def isImportStmt : Stmt → Bool
  | Stmt.importModule _ _ => true
  | Stmt.importFrom _ _ => true
  | _ => false

/-- Statement classifier: calling a dataset-loading function
(`mne.datasets.sample.data_path` or `mne.read_source_estimate`). -/
def isDatasetLoadStmt : Stmt → Bool
  | Stmt.assign _ Expr.dataPathCall => true
  | Stmt.assign _ (Expr.readSourceEstimateCall _) => true
  | _ => false

/-- Statement classifier: the call to the plotting function with its
configuration keyword arguments. -/
def isPlotCallStmt : Stmt → Bool
  | Stmt.assignPlotCall _ _ _ => true
  | _ => false

/-- Statement classifier: displaying the interactive widget.  In this
notebook the widget is displayed as a side effect of the plotting call
itself (cell 3's `display_data` output); no other statement displays
anything. -/
def isWidgetDisplayStmt (s : Stmt) : Bool := isPlotCallStmt s

/-- A statement of one of the four kinds named by the specification:
(a) importing third-party libraries, (b) calling a dataset-loading
function, (c) calling the single plotting function, (d) displaying an
interactive widget. -/
def isFourKindsStmt (s : Stmt) : Bool :=
  isImportStmt s || isDatasetLoadStmt s || isPlotCallStmt s || isWidgetDisplayStmt s

/-- Statement classifier: a straight-line assignment of a string
literal or of a path join of a variable with a string literal. -/
def isConstAssignStmt : Stmt → Bool
  | Stmt.assign _ (Expr.strLit _) => true
  | Stmt.assign _ (Expr.pathJoinCall (Expr.var _) (Expr.strLit _)) => true
  | _ => false

/-- Statement classifier: printing an attribute of a variable (the
notebook's `print(stc.times)`). -/
def isPrintAttrStmt : Stmt → Bool
  | Stmt.printStmt (Expr.attr (Expr.var _) _) => true
  | _ => false

/-- Every notebook statement is one of: the four specified kinds, a
constant/path assignment, or the diagnostic print. -/
def isGlueStmt (s : Stmt) : Bool :=
  isFourKindsStmt s || isConstAssignStmt s || isPrintAttrStmt s

/-- The source lines of the first code cell, verbatim. -/
def cell1Lines : List String :=
  [ "import os.path as path", "", "import mne",
    "from mne import read_source_estimate", "", "import numpy as np" ]

/-- The source lines of the second code cell, verbatim. -/
def cell2Lines : List String := [ "import mne_g3d" ]

/-- The source lines of the third code cell, verbatim. -/
def cell3Lines : List String :=
  [ "data_path = mne.datasets.sample.data_path()",
    "",
    "subject = \x27sample\x27",
    "subjects_dir = path.join(data_path, \x27subjects\x27)",
    "act_data = path.join(data_path, \x27MEG/sample/sample_audvis-meg-eeg\x27)",
    "",
    "stc = read_source_estimate(act_data)",
    "print(stc.times)",
    "#\"lat\", \"med\", \"fos\", \"cau\", \"dor\",",
    "#        \"ven\", \"fro\", \"par\"].",
    "",
    "fig = mne_g3d.viz.plot_source_estimates(stc, subject=subject, surface=\x27inflated\x27, hemi=\x27both\x27,",
    "                          colormap=\x27hot\x27, smoothing_steps=10, ",
    "                          transparent=False, alpha=1.0, subjects_dir=subjects_dir,",
    "                          clim=\x27auto\x27, figure=None, size=800,",
    "                          background=\"black\", initial_time=0.23)" ]

/-- The source lines of the fourth (empty) code cell. -/
def cell4Lines : List String := []

/-- Total number of source-code lines across all code cells. -/
def codeLineCount : ℕ :=
  cell1Lines.length + cell2Lines.length + cell3Lines.length + cell4Lines.length

/-- The time axis of the loaded recording as printed in the notebook's
output log: `[0.   0.01 0.02 ... 0.24]`. -/
def loggedTimes : List ℚ :=
  [ 0, 1/100, 2/100, 3/100, 4/100, 5/100, 6/100, 7/100, 8/100, 9/100,
    10/100, 11/100, 12/100, 13/100, 14/100, 15/100, 16/100, 17/100,
    18/100, 19/100, 20/100, 21/100, 22/100, 23/100, 24/100 ]

/-- Look up a keyword argument by name. -/
def kwLookup (k : String) : List (String × Value) → Option Value
  | [] => none
  | (k1, v) :: rest => if k1 = k then some v else kwLookup k rest

/-- Event classifier: a `plot_source_estimates` call. -/
def Event.isPlot : Event → Bool
  | Event.plotSourceEstimates _ _ => true
  | _ => false

/-- Event classifier: a `data_path` call. -/
def Event.isDataPath : Event → Bool
  | Event.dataPath => true
  | _ => false

/-- A concrete behaviour of the external libraries on which every call
succeeds, with the recording's time axis as logged in the notebook. -/
def okOracle : Oracle where
  dataPathRes := Except.ok "/home/user/mne_data/MNE-sample-data"
  readRes := fun _ => Except.ok ⟨loggedTimes, 0⟩
  plotRes := fun _ _ => Except.ok 0

/-- A behaviour identical to `okOracle` except that rendering fails. -/
def plotFailOracle : Oracle where
  dataPathRes := Except.ok "/home/user/mne_data/MNE-sample-data"
  readRes := fun _ => Except.ok ⟨loggedTimes, 0⟩
  plotRes := fun _ _ => Except.error "RuntimeError"

/-- The ten hard-coded configuration options, as literal expressions of
the source call. -/
def hardCodedPlotLiterals (kws : List (String × Expr)) : Prop :=
  ("surface", Expr.strLit "inflated") ∈ kws ∧
  ("hemi", Expr.strLit "both") ∈ kws ∧
  ("colormap", Expr.strLit "hot") ∈ kws ∧
  ("smoothing_steps", Expr.numLit 10) ∈ kws ∧
  ("transparent", Expr.boolLit false) ∈ kws ∧
  ("alpha", Expr.numLit 1) ∈ kws ∧
  ("clim", Expr.strLit "auto") ∈ kws ∧
  ("size", Expr.numLit 800) ∈ kws ∧
  ("background", Expr.strLit "black") ∈ kws ∧
  ("initial_time", Expr.numLit (23/100)) ∈ kws

/-- The ten hard-coded configuration options, as the values received by
the external plotting call. -/
def hardCodedPlotOptions (kvs : List (String × Value)) : Prop :=
  kwLookup "surface" kvs = some (Value.str "inflated") ∧
  kwLookup "hemi" kvs = some (Value.str "both") ∧
  kwLookup "colormap" kvs = some (Value.str "hot") ∧
  kwLookup "smoothing_steps" kvs = some (Value.num 10) ∧
  kwLookup "transparent" kvs = some (Value.bool false) ∧
  kwLookup "alpha" kvs = some (Value.num 1) ∧
  kwLookup "clim" kvs = some (Value.str "auto") ∧
  kwLookup "size" kvs = some (Value.num 800) ∧
  kwLookup "background" kvs = some (Value.str "black") ∧
  kwLookup "initial_time" kvs = some (Value.num (23/100))

instance (kvs : List (String × Value)) : Decidable (hardCodedPlotOptions kvs) := by
  unfold hardCodedPlotOptions; infer_instance

instance (kws : List (String × Expr)) : Decidable (hardCodedPlotLiterals kws) := by
  unfold hardCodedPlotLiterals; infer_instance

/-- Unfolding lemma: when `data_path()` raises, the run stops there. -/
theorem run_dataPath_error (o : Oracle) (e : String)
    (h : o.dataPathRes = Except.error e) :
    (runNotebook o).1.trace = [Event.dataPath] ∧ (runNotebook o).2 = some e := by
  simp [runNotebook, notebookStmts, cell1, cell2, cell3, cell4, execStmts, execStmt,
    evalExpr, h, initState, ExecState.emit, ExecState.setVar]

/-- Unfolding lemma: when `read_source_estimate` raises, the run stops
there; the plotting call never happens. -/
theorem run_read_error (o : Oracle) (dp : String) (e : String)
    (hdp : o.dataPathRes = Except.ok dp)
    (hrd : o.readRes (actPath dp) = Except.error e) :
    (runNotebook o).1.trace = [Event.dataPath, Event.readSourceEstimate (actPath dp)] ∧
    (runNotebook o).2 = some e := by
  simp only [actPath] at hrd
  simp [runNotebook, notebookStmts, cell1, cell2, cell3, cell4, execStmts, execStmt,
    evalExpr, hdp, initState, ExecState.emit, ExecState.setVar, actPath, hrd]

/-- Unfolding lemma: when both loads succeed, the print happens and the
plotting call receives the loaded object and the literal keyword
arguments; the run raises exactly when the plot raises. -/
theorem run_after_read (o : Oracle) (dp : String) (st : SourceEstimate)
    (hdp : o.dataPathRes = Except.ok dp)
    (hrd : o.readRes (actPath dp) = Except.ok st) :
    (runNotebook o).1.trace = fullTrace dp st ∧
    (runNotebook o).1.env VarName.stc = some (Value.stcObj st) ∧
    (runNotebook o).2 =
      (match o.plotRes (Value.stcObj st) (plotKwargsOut dp) with
       | Except.ok _ => none
       | Except.error err => some err) := by
  simp only [actPath] at hrd
  cases hpl : o.plotRes (Value.stcObj st) (plotKwargsOut dp) <;>
  simp only [plotKwargsOut] at hpl <;>
  simp [runNotebook, notebookStmts, cell1, cell2, cell3, cell4, execStmts, execStmt,
    evalExpr, evalKwargs, hdp, initState, ExecState.emit, ExecState.setVar, actPath, hrd,
    hpl, plotKwargsSrc, plotKwargsOut, fullTrace]

/-- Every run's event trace is one of three shapes, depending on where
the external libraries first raise. -/
theorem run_cases (o : Oracle) :
    (∃ e, o.dataPathRes = Except.error e ∧
      (runNotebook o).1.trace = [Event.dataPath]) ∨
    (∃ dp e, o.dataPathRes = Except.ok dp ∧ o.readRes (actPath dp) = Except.error e ∧
      (runNotebook o).1.trace = [Event.dataPath, Event.readSourceEstimate (actPath dp)]) ∨
    (∃ dp st, o.dataPathRes = Except.ok dp ∧ o.readRes (actPath dp) = Except.ok st ∧
      (runNotebook o).1.trace = fullTrace dp st) := by
  cases hdp : o.dataPathRes with
  | error e => exact Or.inl ⟨e, rfl, (run_dataPath_error o e hdp).1⟩
  | ok dp =>
    cases hrd : o.readRes (actPath dp) with
    | error e => exact Or.inr (Or.inl ⟨dp, e, rfl, hrd, (run_read_error o dp e hdp hrd).1⟩)
    | ok st => exact Or.inr (Or.inr ⟨dp, st, rfl, hrd, (run_after_read o dp st hdp hrd).1⟩)

end PlotStc

namespace PlotStc

/-- C1: the single call to `plot_source_estimates` passes the
hard-coded options surface `inflated`, hemi `both`, colormap `hot`,
smoothing steps 10, transparent `False`, alpha 1.0, clim `auto`, size
800, background `black`, and initial time 0.23; they appear as literals
in the source call and are handed to the external library verbatim, and
at most one plotting call ever occurs. -/
theorem c1_plot_options_verbatim (o : Oracle) (v : Value) (kvs : List (String × Value))
    (h : Event.plotSourceEstimates v kvs ∈ (runNotebook o).1.trace) :
    hardCodedPlotLiterals plotKwargsSrc ∧ hardCodedPlotOptions kvs ∧
    ((runNotebook o).1.trace.filter Event.isPlot).length = 1 := by
  rcases run_cases o with ⟨e, _, htr⟩ | ⟨dp, e, _, _, htr⟩ | ⟨dp, st, _, _, htr⟩ <;>
    rw [htr] at h ⊢
  · simp at h
  · simp at h
  · simp [fullTrace] at h
    rcases h with ⟨hv, hk⟩
    subst hk
    refine ⟨by simp [hardCodedPlotLiterals, plotKwargsSrc], ?_,
      by simp [fullTrace, Event.isPlot]⟩
    simp [hardCodedPlotOptions, kwLookup, plotKwargsOut]

/-- Witness for C1 at a concrete behaviour of the external
libraries. -/
theorem c1_witness :
    Event.plotSourceEstimates (Value.stcObj ⟨loggedTimes, 0⟩)
        (plotKwargsOut "/home/user/mne_data/MNE-sample-data") ∈
      (runNotebook okOracle).1.trace ∧
    (hardCodedPlotLiterals plotKwargsSrc ∧
      hardCodedPlotOptions (plotKwargsOut "/home/user/mne_data/MNE-sample-data") ∧
      ((runNotebook okOracle).1.trace.filter Event.isPlot).length = 1) := by
  have hmem : Event.plotSourceEstimates (Value.stcObj ⟨loggedTimes, 0⟩)
      (plotKwargsOut "/home/user/mne_data/MNE-sample-data") ∈
      (runNotebook okOracle).1.trace := by
    rw [(run_after_read okOracle "/home/user/mne_data/MNE-sample-data"
      ⟨loggedTimes, 0⟩ rfl rfl).1]
    simp [fullTrace]
  exact ⟨hmem, c1_plot_options_verbatim okOracle _ _ hmem⟩

/-- C2: the notebook raises exactly when one of the three external
calls raises, and performs no further operations after a raise: a
`data_path` failure leaves only that call in the trace, a
`read_source_estimate` failure leaves exactly the two load calls, and
a plotting failure propagates as the run's exception. -/
theorem c2_error_propagation (o : Oracle) :
    ((runNotebook o).2 = none ↔
      (∃ dp st n, o.dataPathRes = Except.ok dp ∧ o.readRes (actPath dp) = Except.ok st ∧
        o.plotRes (Value.stcObj st) (plotKwargsOut dp) = Except.ok n)) ∧
    (∀ e, o.dataPathRes = Except.error e →
      (runNotebook o).2 = some e ∧ (runNotebook o).1.trace = [Event.dataPath]) ∧
    (∀ dp e, o.dataPathRes = Except.ok dp → o.readRes (actPath dp) = Except.error e →
      (runNotebook o).2 = some e ∧
      (runNotebook o).1.trace = [Event.dataPath, Event.readSourceEstimate (actPath dp)]) ∧
    (∀ dp st e, o.dataPathRes = Except.ok dp → o.readRes (actPath dp) = Except.ok st →
      o.plotRes (Value.stcObj st) (plotKwargsOut dp) = Except.error e →
      (runNotebook o).2 = some e) := by
  refine ⟨?_, ?_, ?_, ?_⟩
  · constructor
    · intro hnone
      cases hdp : o.dataPathRes with
      | error e =>
        rw [(run_dataPath_error o e hdp).2] at hnone
        exact absurd hnone (by simp)
      | ok dp =>
        cases hrd : o.readRes (actPath dp) with
        | error e =>
          rw [(run_read_error o dp e hdp hrd).2] at hnone
          exact absurd hnone (by simp)
        | ok st =>
          rw [(run_after_read o dp st hdp hrd).2.2] at hnone
          cases hpl : o.plotRes (Value.stcObj st) (plotKwargsOut dp) with
          | error e => rw [hpl] at hnone; exact absurd hnone (by simp)
          | ok n => exact ⟨dp, st, n, rfl, hrd, hpl⟩
    · rintro ⟨dp, st, n, hdp, hrd, hpl⟩
      rw [(run_after_read o dp st hdp hrd).2.2, hpl]
  · intro e hdp
    exact ⟨(run_dataPath_error o e hdp).2, (run_dataPath_error o e hdp).1⟩
  · intro dp e hdp hrd
    exact ⟨(run_read_error o dp e hdp hrd).2, (run_read_error o dp e hdp hrd).1⟩
  · intro dp st e hdp hrd hpl
    rw [(run_after_read o dp st hdp hrd).2.2, hpl]

/-- Witness for C2: on a behaviour where every external call succeeds,
the run raises no exception. -/
theorem c2_witness : (runNotebook okOracle).2 = none :=
  ((c2_error_propagation okOracle).1).mpr
    ⟨"/home/user/mne_data/MNE-sample-data", ⟨loggedTimes, 0⟩, 0, rfl, rfl, rfl⟩

end PlotStc

namespace PlotStc

/-- C3 counterexample: the notebook contains the statement
`print(stc.times)`, which is none of the four kinds of operations the
claim allows (importing, dataset loading, the plotting call, widget
display): it is an additional textual output operation. -/
theorem c3_counterexample :
    Stmt.printStmt (Expr.attr (Expr.var VarName.stc) "times") ∈ notebookStmts ∧
    isFourKindsStmt (Stmt.printStmt (Expr.attr (Expr.var VarName.stc) "times")) = false := by
  constructor
  · simp [notebookStmts, cell1, cell2, cell3, cell4]
  · rfl

/-- C3 (amended): every statement of the notebook is an import, a
dataset-loading call, the single plotting call (which also displays the
widget), a straight-line assignment of a string constant or a path
join, or the diagnostic print of the recording's `times` attribute —
no other computation, output, or control flow appears in any cell. -/
theorem c3_cells_glue_only (s : Stmt) (h : s ∈ notebookStmts) : isGlueStmt s = true := by
  fin_cases h <;> rfl

/-- Witness for C3 (amended) at a concrete statement. -/
theorem c3_witness : isGlueStmt (Stmt.importModule "mne_g3d" none) = true :=
  c3_cells_glue_only (Stmt.importModule "mne_g3d" none)
    (by simp [notebookStmts, cell1, cell2, cell3, cell4])

/-- C4: every invocation of `read_source_estimate` receives exactly the
single path argument `path.join(data_path, 'MEG/sample/sample_audvis-meg-eeg')`
formed from the dataset root, and the source statement passes that one
argument. -/
theorem c4_read_single_path_arg (o : Oracle) (p : String)
    (h : Event.readSourceEstimate p ∈ (runNotebook o).1.trace) :
    (∃ dp, o.dataPathRes = Except.ok dp ∧
      p = osPathJoin dp "MEG/sample/sample_audvis-meg-eeg") ∧
    Stmt.assign VarName.stc (Expr.readSourceEstimateCall (Expr.var VarName.act_data)) ∈
      notebookStmts := by
  refine ⟨?_, by simp [notebookStmts, cell1, cell2, cell3, cell4]⟩
  rcases run_cases o with ⟨e, hdp, htr⟩ | ⟨dp, e, hdp, hrd, htr⟩ | ⟨dp, st, hdp, hrd, htr⟩ <;>
    rw [htr] at h
  · simp at h
  · simp [actPath, actDataRel] at h
    exact ⟨dp, hdp, h⟩
  · simp [fullTrace, actPath, actDataRel] at h
    exact ⟨dp, hdp, h⟩

/-- Witness for C4 at a concrete behaviour of the external
libraries. -/
theorem c4_witness :
    ∃ dp, okOracle.dataPathRes = Except.ok dp ∧
      osPathJoin "/home/user/mne_data/MNE-sample-data" "MEG/sample/sample_audvis-meg-eeg" =
        osPathJoin dp "MEG/sample/sample_audvis-meg-eeg" := by
  have hmem : Event.readSourceEstimate
      (osPathJoin "/home/user/mne_data/MNE-sample-data" "MEG/sample/sample_audvis-meg-eeg") ∈
      (runNotebook okOracle).1.trace := by
    rw [(run_after_read okOracle "/home/user/mne_data/MNE-sample-data"
      ⟨loggedTimes, 0⟩ rfl rfl).1]
    simp [fullTrace, actPath, actDataRel]
  exact (c4_read_single_path_arg okOracle _ hmem).1

/-- C5: the loaded source-estimate object is consumed opaquely: the
value bound to `stc` stays exactly the object the loader returned, the
plotting call receives that very object, and the only observation made
of it is the print of its `times` attribute. -/
theorem c5_stc_opaque_passthrough (o : Oracle) (dp : String) (st : SourceEstimate)
    (hdp : o.dataPathRes = Except.ok dp) (hrd : o.readRes (actPath dp) = Except.ok st) :
    (∀ v kvs, Event.plotSourceEstimates v kvs ∈ (runNotebook o).1.trace →
      v = Value.stcObj st) ∧
    (runNotebook o).1.env VarName.stc = some (Value.stcObj st) ∧
    printedOutput (runNotebook o).1.trace = [Value.timesArr st.times] := by
  obtain ⟨htr, henv, -⟩ := run_after_read o dp st hdp hrd
  refine ⟨?_, henv, ?_⟩
  · intro v kvs hv
    rw [htr] at hv
    simp [fullTrace] at hv
    exact hv.1
  · rw [htr]
    simp [printedOutput, fullTrace]

/-- Witness for C5 at a concrete behaviour of the external
libraries. -/
theorem c5_witness :
    (runNotebook okOracle).1.env VarName.stc = some (Value.stcObj ⟨loggedTimes, 0⟩) :=
  (c5_stc_opaque_passthrough okOracle "/home/user/mne_data/MNE-sample-data"
    ⟨loggedTimes, 0⟩ rfl rfl).2.1

/-- C6: execution is strictly sequential: the event trace is exactly
dataset-path resolution, then the load at the joined path, then the
print of `stc.times`, then the render call — the render never occurs
before the load has completed. -/
theorem c6_sequential_order (o : Oracle) (dp : String) (st : SourceEstimate)
    (hdp : o.dataPathRes = Except.ok dp) (hrd : o.readRes (actPath dp) = Except.ok st) :
    (runNotebook o).1.trace =
      [ Event.dataPath,
        Event.readSourceEstimate (osPathJoin dp "MEG/sample/sample_audvis-meg-eeg"),
        Event.print (Value.timesArr st.times),
        Event.plotSourceEstimates (Value.stcObj st) (plotKwargsOut dp) ] := by
  have h := (run_after_read o dp st hdp hrd).1
  simpa [fullTrace, actPath, actDataRel] using h

/-- Witness for C6 at a concrete behaviour of the external
libraries. -/
theorem c6_witness :
    (runNotebook okOracle).1.trace =
      [ Event.dataPath,
        Event.readSourceEstimate
          (osPathJoin "/home/user/mne_data/MNE-sample-data" "MEG/sample/sample_audvis-meg-eeg"),
        Event.print (Value.timesArr loggedTimes),
        Event.plotSourceEstimates (Value.stcObj ⟨loggedTimes, 0⟩)
          (plotKwargsOut "/home/user/mne_data/MNE-sample-data") ] :=
  c6_sequential_order okOracle "/home/user/mne_data/MNE-sample-data"
    ⟨loggedTimes, 0⟩ rfl rfl

/-- C7: the total number of source-code lines across all four code
cells (blank and comment lines included) is strictly less than 70. -/
theorem c7_under_70_lines : codeLineCount < 70 := by decide

/-- C8: both path arguments derive from the single value returned by
the one `data_path()` call: the recording is read from
`path.join(data_path, 'MEG/sample/sample_audvis-meg-eeg')`, the
plotting call's `subjects_dir` is `path.join(data_path, 'subjects')`,
and its `subject` is the fixed string `sample`. -/
theorem c8_paths_share_dataset_root (o : Oracle) (dp : String)
    (hdp : o.dataPathRes = Except.ok dp) :
    ((runNotebook o).1.trace.filter Event.isDataPath).length = 1 ∧
    (∀ p, Event.readSourceEstimate p ∈ (runNotebook o).1.trace →
      p = osPathJoin dp "MEG/sample/sample_audvis-meg-eeg") ∧
    (∀ v kvs, Event.plotSourceEstimates v kvs ∈ (runNotebook o).1.trace →
      kwLookup "subjects_dir" kvs = some (Value.str (osPathJoin dp "subjects")) ∧
      kwLookup "subject" kvs = some (Value.str "sample")) := by
  cases hrd : o.readRes (actPath dp) with
  | error e =>
    obtain ⟨htr, -⟩ := run_read_error o dp e hdp hrd
    rw [htr]
    refine ⟨by simp [Event.isDataPath], ?_, ?_⟩
    · intro p hp
      simp [actPath, actDataRel] at hp
      exact hp
    · intro v kvs hv
      simp at hv
  | ok st =>
    have htr := (run_after_read o dp st hdp hrd).1
    rw [htr]
    refine ⟨by simp [fullTrace, Event.isDataPath], ?_, ?_⟩
    · intro p hp
      simp [fullTrace, actPath, actDataRel] at hp
      exact hp
    · intro v kvs hv
      simp [fullTrace] at hv
      rcases hv with ⟨-, hk⟩
      subst hk
      constructor <;> simp [kwLookup, plotKwargsOut]

/-- Witness for C8 at a concrete behaviour of the external
libraries. -/
theorem c8_witness :
    ((runNotebook okOracle).1.trace.filter Event.isDataPath).length = 1 :=
  (c8_paths_share_dataset_root okOracle "/home/user/mne_data/MNE-sample-data" rfl).1

/-- C9: determinism of the glue layer: two executions in which
`data_path()` returns the same root and `read_source_estimate` returns
the same object produce identical event traces — in particular both
external calls receive identical argument tuples — and identical
printed output, whatever the plotting call then does. -/
theorem c9_glue_deterministic (o1 o2 : Oracle) (dp : String) (st : SourceEstimate)
    (h1 : o1.dataPathRes = Except.ok dp) (h2 : o2.dataPathRes = Except.ok dp)
    (r1 : o1.readRes (actPath dp) = Except.ok st)
    (r2 : o2.readRes (actPath dp) = Except.ok st) :
    (runNotebook o1).1.trace = (runNotebook o2).1.trace ∧
    printedOutput (runNotebook o1).1.trace = printedOutput (runNotebook o2).1.trace := by
  have t1 := (run_after_read o1 dp st h1 r1).1
  have t2 := (run_after_read o2 dp st h2 r2).1
  rw [t1, t2]
  exact ⟨rfl, rfl⟩

/-- Witness for C9: a run where rendering succeeds and a run where it
fails still produce the same trace and printed output. -/
theorem c9_witness :
    (runNotebook okOracle).1.trace = (runNotebook plotFailOracle).1.trace ∧
    printedOutput (runNotebook okOracle).1.trace =
      printedOutput (runNotebook plotFailOracle).1.trace :=
  c9_glue_deterministic okOracle plotFailOracle "/home/user/mne_data/MNE-sample-data"
    ⟨loggedTimes, 0⟩ rfl rfl rfl rfl

/-- C10: the hard-coded initial display time 0.23 is an element of the
recording's time axis as printed in the notebook's output log (0.0
through 0.24 in steps of 0.01): the requested initial time lies within
the sampled range. -/
theorem c10_initial_time_sampled :
    ("initial_time", Expr.numLit (23/100)) ∈ plotKwargsSrc ∧
    (∀ dp, kwLookup "initial_time" (plotKwargsOut dp) = some (Value.num (23/100))) ∧
    (23/100 : ℚ) ∈ loggedTimes := by
  refine ⟨by simp [plotKwargsSrc], fun dp => by simp [kwLookup, plotKwargsOut], ?_⟩
  simp [loggedTimes]

end PlotStc
